import Mathlib

/-!
Verification development for the Solana relayer server
(`src/unnamed/part_000`, an Express HTTP gateway).

The server is a parameter-validating shim: it validates JSON tip
requests, derives program-derived addresses (PDAs) via
`PublicKey.findProgramAddressSync`, and delegates transaction
construction and submission to the Anchor/web3.js client.

Shallow embedding choices:
* JSON request field values are modelled by `JSVal` (`undefined`,
  `null`, booleans, integers, strings).  JS numbers are modelled as
  integers, matching the spec's data model ("amount: positive integer,
  smallest currency unit").
* `Buffer.from(string)` is UTF-8 encoding, implemented concretely.
* `new PublicKey(string)` is base58 decoding to exactly 32 bytes,
  implemented concretely.  Non-string request values reaching the
  constructor are modelled as parse failures; all theorems about
  wallet parsing hypothesise string-valued wallet fields, which is the
  documented HTTP surface.
* The SHA-256 hash and the on-curve check inside the SDK's PDA
  derivation are abstract parameters of the derivation function: every
  theorem about derivation holds for an arbitrary hash and curve test.
* The network is a parameter: the `.rpc()` outcome (a signature or a
  thrown JS error) and the `getBalance` outcome are inputs to the
  handlers, and each handler outcome records whether the rpc call was
  reached, the derivation calls issued, the arguments passed, and the
  signer list.
-/

namespace Relayer

/-- Model of a JavaScript value as it can appear in a parsed JSON
request body or as a field of a thrown error.  Numbers are modelled as
integers (the spec's tip amounts are integers in the smallest currency
unit). -/
inductive JSVal where
  | undefined : JSVal
  | null : JSVal
  | bool : Bool → JSVal
  | num : Int → JSVal
  | str : String → JSVal
deriving DecidableEq, Repr

/-- JavaScript truthiness: `undefined`, `null`, `false`, `0` and `""`
are falsy, everything else modelled here is truthy. -/
def JSVal.truthy : JSVal → Bool
  | .undefined => false
  | .null => false
  | .bool b => b
  | .num n => n != 0
  | .str s => s != ""

/-- UTF-8 encoding of a single character, as a list of byte values. -/
def charUtf8 (c : Char) : List Nat :=
  let n := c.toNat
  if n < 0x80 then [n]
  else if n < 0x800 then [0xC0 + n / 64, 0x80 + n % 64]
  else if n < 0x10000 then
    [0xE0 + n / 4096, 0x80 + (n / 64) % 64, 0x80 + n % 64]
  else
    [0xF0 + n / 262144, 0x80 + (n / 4096) % 64, 0x80 + (n / 64) % 64,
     0x80 + n % 64]

/-- Model of `Buffer.from(s)` for a string: its UTF-8 bytes. -/
def utf8Bytes (s : String) : List Nat :=
  (s.data.map charUtf8).flatten

/-- The base58 alphabet used by Solana addresses. -/
def base58Alphabet : List Char :=
  "123456789ABCDEFGHJKLMNPQRSTUVWXYZabcdefghijkmnopqrstuvwxyz".data

/-- Value of a base58 digit (57 is never reached for alphabet
characters; non-alphabet characters are rejected before lookup). -/
def b58Val (c : Char) : Nat :=
  (base58Alphabet.indexOf c)

/-- Minimal big-endian base-256 digits of `n`, with `fuel` bounding the
number of digits (any `fuel` at least the digit count gives the exact
minimal representation). -/
def natToBytesAux : Nat → Nat → List Nat
  | 0, _ => []
  | fuel + 1, n =>
    if n = 0 then [] else natToBytesAux fuel (n / 256) ++ [n % 256]

/-- Base58 decoding: reject any character outside the alphabet,
interpret the string as a base-58 number, convert to minimal big-endian
bytes, and prepend one zero byte per leading `1` character. -/
def base58Decode (s : String) : Option (List Nat) :=
  let cs := s.data
  if cs.all (fun c => base58Alphabet.contains c) then
    let n := cs.foldl (fun a c => a * 58 + b58Val c) 0
    let z := (cs.takeWhile (fun c => c == '1')).length
    some (List.replicate z 0 ++ natToBytesAux cs.length n)
  else none

/-- A Solana public key: exactly 32 bytes. -/
structure PublicKey where
  bytes : List Nat
deriving DecidableEq, Repr

/-- Model of `new PublicKey(s)` on a string: base58-decode and require
exactly 32 bytes, otherwise the constructor throws. -/
def parsePublicKeyStr (s : String) : Option PublicKey :=
  match base58Decode s with
  | some bs => if bs.length = 32 then some ⟨bs⟩ else none
  | none => none

/-- Model of `new PublicKey(v)` on an arbitrary request value.  The
HTTP surface documents wallets as strings; non-string values are
modelled as constructor failures (all theorems about parsing
hypothesise string wallets). -/
def parsePublicKeyVal : JSVal → Option PublicKey
  | .str s => parsePublicKeyStr s
  | _ => none

/-- The marker bytes the SDK appends before hashing PDA seeds. -/
def pdaMarker : List Nat := utf8Bytes "ProgramDerivedAddress"

/-- The SDK's maximum length for a single PDA seed, in bytes. -/
def maxSeedLength : Nat := 32

/-- The two ways `createProgramAddressSync` can throw: the
`TypeError("Max seed length exceeded")` for an over-long seed, and the
"Invalid seeds, address must fall off the curve" error for an on-curve
hash. -/
inductive CreateErr where
  | maxSeed : CreateErr
  | onCurveHash : CreateErr
deriving DecidableEq, Repr

/-- The two ways `findProgramAddressSync` can throw: the rethrown
max-seed-length `TypeError`, and exhaustion of the nonce loop. -/
inductive FindErr where
  | maxSeed : FindErr
  | unableToFind : FindErr
deriving DecidableEq, Repr

/-- Model of `PublicKey.createProgramAddressSync`: throw the
max-seed-length `TypeError` if any seed exceeds 32 bytes, otherwise
concatenate the seeds, the program identifier bytes and the marker,
hash, and throw when the hash lies on the curve.  The SHA-256 hash and
the curve membership test are abstract parameters. -/
def createProgramAddressSync (hash : List Nat → List Nat)
    (onCurve : List Nat → Bool) (seeds : List (List Nat))
    (programId : List Nat) : Except CreateErr (List Nat) :=
  if seeds.any (fun s => maxSeedLength < s.length) then
    .error .maxSeed
  else
    let h := hash (seeds.flatten ++ programId ++ pdaMarker)
    if onCurve h then .error .onCurveHash else .ok h

/-- Nonce loop of `findProgramAddressSync`: while `nonce != 0`, try
`createProgramAddressSync(seeds ++ [nonce])`; rethrow a `TypeError`
at once, decrement the nonce on any other throw.  The fuel argument is
the current nonce, so nonce 0 is never tried. -/
def findPALoop (hash : List Nat → List Nat) (onCurve : List Nat → Bool)
    (seeds : List (List Nat)) (programId : List Nat) :
    Nat → Except FindErr (List Nat × Nat)
  | 0 => .error .unableToFind
  | n + 1 =>
    match createProgramAddressSync hash onCurve (seeds ++ [[n + 1]])
        programId with
    | .ok a => .ok (a, n + 1)
    | .error .maxSeed => .error .maxSeed
    | .error .onCurveHash => findPALoop hash onCurve seeds programId n

/-- Model of `PublicKey.findProgramAddressSync`: search bump seeds from
255 down to 1 and return the first off-curve address with its bump;
an over-long seed rethrows the `TypeError`, an exhausted loop throws
"Unable to find a viable program address nonce". -/
def findProgramAddressSync (hash : List Nat → List Nat)
    (onCurve : List Nat → Bool) (seeds : List (List Nat))
    (programId : List Nat) : Except FindErr (List Nat × Nat) :=
  findPALoop hash onCurve seeds programId 255

/-- Body of a `POST /tip` request, as destructured by the handler:
`const \x7b viewerUserId, creatorUserId, viewerWallet, creatorWallet,
amount \x7d = req.body`.  A field absent from the JSON body
destructures to `undefined`. -/
structure TipRequest where
  viewerUserId : JSVal
  creatorUserId : JSVal
  viewerWallet : JSVal
  creatorWallet : JSVal
  amount : JSVal
deriving DecidableEq, Repr

/-- A thrown JavaScript error as the handlers observe it: `err.message`,
`err.logs` (absent unless the client attached transaction logs) and
`err.code` (absent, a string, or a number, depending on the error
class). -/
structure JsError where
  message : String
  logs : Option (List String)
  code : JSVal
deriving DecidableEq, Repr

/-- The JavaScript error a `findProgramAddressSync` throw surfaces to
the handler's catch block; neither carries logs nor a code. -/
def FindErr.toJsError : FindErr → JsError
  | .maxSeed =>
    { message := "Max seed length exceeded"
      logs := none
      code := JSVal.undefined }
  | .unableToFind =>
    { message := "Unable to find a viable program address nonce"
      logs := none
      code := JSVal.undefined }

/-- An HTTP JSON response as assembled by the `/tip` and `/health`
handlers: the status code plus the optional body fields any of their
`res.json(...)` calls can set. -/
structure Response where
  status : Nat
  error : Option String := none
  required : Option (List String) := none
  success : Option Bool := none
  txSig : Option String := none
  message : Option String := none
  details : Option (List String) := none
  code : Option JSVal := none
deriving DecidableEq, Repr

/-- The observable outcome of one `/tip` request: the HTTP response,
the `findProgramAddressSync` calls issued (seed list and program
identifier of each, in order), whether `.rpc()` was reached, the
arguments passed to `tipCreator`, and the signer list passed to
`.signers(...)`. -/
structure TipOutcome where
  response : Response
  derivations : List (List (List Nat) × List Nat)
  rpcCalled : Bool
  rpcArgs : Option (JSVal × JSVal × Int)
  signers : List PublicKey
deriving DecidableEq, Repr

/-- The 400 response for missing parameters, verbatim from the
handler. -/
def missingParamsResponse : Response :=
  { status := 400
    error := some "Missing required parameters"
    required := some ["viewerUserId", "creatorUserId", "viewerWallet",
                      "creatorWallet", "amount"] }

/-- The 400 response for an invalid amount, verbatim from the
handler. -/
def invalidAmountResponse : Response :=
  { status := 400
    error := some "Invalid amount - must be a positive number" }

/-- The 400 response for a malformed wallet address, verbatim from the
handler. -/
def invalidWalletResponse : Response :=
  { status := 400
    error := some "Invalid wallet address format" }

/-- The first validation check:
`!viewerUserId || !creatorUserId || !viewerWallet || !creatorWallet ||
amount === undefined`. -/
def missingCheck (rq : TipRequest) : Bool :=
  !rq.viewerUserId.truthy || !rq.creatorUserId.truthy ||
  !rq.viewerWallet.truthy || !rq.creatorWallet.truthy ||
  rq.amount == JSVal.undefined

/-- The second validation check:
`typeof amount !== 'number' || amount <= 0`. -/
def invalidAmountCheck : JSVal → Bool
  | .num n => decide (n ≤ 0)
  | _ => true

/-- Model of `Buffer.from(v)` on a request value: UTF-8 bytes for a
string (the only form the valid path uses; theorems about the
derivation seeds hypothesise string identifiers). -/
def bufferFromVal : JSVal → List Nat
  | .str s => utf8Bytes s
  | _ => []

/-- The integer carried by a numeric request value (the handler reads
it only after `invalidAmountCheck` has ruled out non-numbers). -/
def amountInt : JSVal → Int
  | .num n => n
  | _ => 0

/-- The 500 response produced when a thrown error reaches the `/tip`
catch block: `error: err.message`, `details: err.logs || []`,
`code: err.code || 'UNKNOWN_ERROR'`.  JavaScript `||` replaces a falsy
`err.code` (absent, `0`, `""`, ...) by the fallback string. -/
def tipCatchResponse (e : JsError) : Response :=
  { status := 500
    error := some e.message
    details := some (e.logs.getD [])
    code := some (if e.code.truthy then e.code
                  else JSVal.str "UNKNOWN_ERROR") }

/-- Model of the `/tip` handler.  Parameters: the abstract hash and
curve test of the SDK's PDA derivation, the fee wallet's public key,
the configured program identifier bytes, the request body, and the
outcome the chain client would produce for the `.rpc()` call (a
signature, or a thrown error). -/
def handleTip (hash : List Nat → List Nat) (onCurve : List Nat → Bool)
    (feeWallet : PublicKey) (programId : List Nat) (rq : TipRequest)
    (rpc : Except JsError String) : TipOutcome :=
  if missingCheck rq then
    ⟨missingParamsResponse, [], false, none, []⟩
  else if invalidAmountCheck rq.amount then
    ⟨invalidAmountResponse, [], false, none, []⟩
  else
    match parsePublicKeyVal rq.viewerWallet,
        parsePublicKeyVal rq.creatorWallet with
    | some viewerPubkey, some creatorPubkey =>
      let viewerSeeds := [utf8Bytes "profile", viewerPubkey.bytes,
                          bufferFromVal rq.viewerUserId]
      match findProgramAddressSync hash onCurve viewerSeeds programId
          with
      | .error e =>
        ⟨tipCatchResponse e.toJsError, [(viewerSeeds, programId)],
         false, none, []⟩
      | .ok _ =>
        let creatorSeeds := [utf8Bytes "profile", creatorPubkey.bytes,
                             bufferFromVal rq.creatorUserId]
        match findProgramAddressSync hash onCurve creatorSeeds
            programId with
        | .error e =>
          ⟨tipCatchResponse e.toJsError,
           [(viewerSeeds, programId), (creatorSeeds, programId)],
           false, none, []⟩
        | .ok _ =>
          let vaultSeeds := [utf8Bytes "fee_vault"]
          match findProgramAddressSync hash onCurve vaultSeeds
              programId with
          | .error e =>
            ⟨tipCatchResponse e.toJsError,
             [(viewerSeeds, programId), (creatorSeeds, programId),
              (vaultSeeds, programId)], false, none, []⟩
          | .ok _ =>
            let derivs := [(viewerSeeds, programId),
                           (creatorSeeds, programId),
                           (vaultSeeds, programId)]
            let args := some (rq.viewerUserId, rq.creatorUserId,
                              amountInt rq.amount)
            match rpc with
            | .ok sig =>
              ⟨{ status := 200
                 success := some true
                 txSig := some sig
                 message := some "Tip sent and fee reimbursed" },
               derivs, true, args, [feeWallet]⟩
            | .error e =>
              ⟨tipCatchResponse e, derivs, true, args, [feeWallet]⟩
    | _, _ =>
      ⟨invalidWalletResponse, [], false, none, []⟩

/-- An HTTP JSON response of the `/health` handler.  The JS handler
renders the balance as `balance / 1e9 + ' SOL'`; the numeric value is
modelled as a rational, the `' SOL'` suffix is elided. -/
structure HealthResponse where
  status : Nat
  statusField : String
  walletBalance : Option ℚ := none
  connection : Option String := none
  error : Option String := none
deriving DecidableEq, Repr

/-- Model of the `/health` handler: the outcome of
`connection.getBalance(feeWallet.publicKey)` (lamports, or a thrown
error) is a parameter. -/
def handleHealth (bal : Except JsError Int) : HealthResponse :=
  match bal with
  | .ok b =>
    { status := 200
      statusField := "healthy"
      walletBalance := some ((b : ℚ) / 1000000000)
      connection := some "ok" }
  | .error e =>
    { status := 503
      statusField := "unhealthy"
      error := some e.message }

/-- One instruction entry of the loaded IDL. -/
structure IdlInstruction where
  name : String
deriving DecidableEq, Repr

/-- One account entry of the loaded IDL. -/
structure IdlAccount where
  name : String
deriving DecidableEq, Repr

/-- The parts of the loaded IDL the `/debug-idl` handler reads. -/
structure Idl where
  instructions : List IdlInstruction
  accounts : List IdlAccount
deriving DecidableEq, Repr

/-- The process-scope state visible to `/debug-idl`: the IDL and the
program identifier, both loaded once at startup. -/
structure ServerState where
  idl : Idl
  programIdStr : String
deriving DecidableEq, Repr

/-- The JSON body of the `/debug-idl` response. -/
structure DebugIdlResponse where
  programIdStr : String
  instructions : List String
  accounts : List String
  hasInitFeeVault : Bool
deriving DecidableEq, Repr

/-- Model of the `/debug-idl` handler: it is threaded through the
process state and returns it unchanged alongside the response,
mirroring that the JS handler only reads `idl` and `programId`. -/
def handleDebugIdl (st : ServerState) : DebugIdlResponse × ServerState :=
  ({ programIdStr := st.programIdStr
     instructions := st.idl.instructions.map (fun i => i.name)
     accounts := st.idl.accounts.map (fun a => a.name)
     hasInitFeeVault :=
       st.idl.instructions.any
         (fun i => i.name == "initialize_fee_vault") },
   st)

/-! Concrete sample inputs used by the witness theorems. -/

/-- The base58 string of thirty-two `1` characters; it decodes to the
all-zero 32-byte key (the system program address). -/
def oneKeyStr : String := "11111111111111111111111111111111"

/-- The all-zero 32-byte public key, the decoding of `oneKeyStr`. -/
def oneKey : PublicKey := ⟨List.replicate 32 0⟩

/-- A concrete stand-in for the abstract SHA-256 hash in witnesses. -/
def sampleHash : List Nat → List Nat := fun l => [l.length % 256]

/-- A concrete curve test for witnesses: nothing is on the curve, so
every bump-seed search succeeds at bump 255. -/
def sampleOffCurve : List Nat → Bool := fun _ => false

/-- A concrete fee wallet key for witnesses. -/
def sampleFeeWallet : PublicKey := ⟨List.replicate 32 7⟩

/-- A concrete 32-byte program identifier for witnesses. -/
def sampleProgramId : List Nat := List.replicate 32 9

/-- A concrete tip request that passes every validation check. -/
def sampleValidRequest : TipRequest :=
  { viewerUserId := .str "v1"
    creatorUserId := .str "c1"
    viewerWallet := .str oneKeyStr
    creatorWallet := .str oneKeyStr
    amount := .num 10000 }

/-- A realistic user identifier (a 36-character UUID string) whose
UTF-8 encoding is 36 bytes — over the SDK's 32-byte seed limit. -/
def longUserId : String := "123e4567-e89b-12d3-a456-426614174000"

end Relayer

namespace Relayer

/-- C1: address derivation is deterministic — two calls to
`findProgramAddressSync` with identical seed lists and program
identifier (for the same underlying hash and curve test) return the
same address. -/
theorem findProgramAddressSync_deterministic
    (hash : List Nat → List Nat) (onCurve : List Nat → Bool)
    (s₁ s₂ : List (List Nat)) (p₁ p₂ : List Nat)
    (hs : s₁ = s₂) (hp : p₁ = p₂) :
    findProgramAddressSync hash onCurve s₁ p₁ =
      findProgramAddressSync hash onCurve s₂ p₂ := by
  subst hs
  subst hp
  rfl

/-- Witness for C1 at concrete seeds and program identifier, together
with the concrete value both calls return. -/
theorem findProgramAddressSync_deterministic_witness :
    findProgramAddressSync sampleHash sampleOffCurve
        [utf8Bytes "fee_vault"] sampleProgramId =
      findProgramAddressSync sampleHash sampleOffCurve
        [utf8Bytes "fee_vault"] sampleProgramId ∧
    findProgramAddressSync sampleHash sampleOffCurve
        [utf8Bytes "fee_vault"] sampleProgramId =
      Except.ok ([63], 255) :=
  ⟨findProgramAddressSync_deterministic sampleHash sampleOffCurve
      [utf8Bytes "fee_vault"] [utf8Bytes "fee_vault"]
      sampleProgramId sampleProgramId rfl rfl,
   rfl⟩

/-- C2: a tip request missing any of the five required fields gets the
400 "Missing required parameters" response, whose `required` list
names all five fields, and the chain client rpc is never invoked. -/
theorem tip_missing_field_400
    (hash : List Nat → List Nat) (onCurve : List Nat → Bool)
    (fw : PublicKey) (pid : List Nat) (rq : TipRequest)
    (rpc : Except JsError String)
    (h : rq.viewerUserId = JSVal.undefined ∨
         rq.creatorUserId = JSVal.undefined ∨
         rq.viewerWallet = JSVal.undefined ∨
         rq.creatorWallet = JSVal.undefined ∨
         rq.amount = JSVal.undefined) :
    (handleTip hash onCurve fw pid rq rpc).response =
        missingParamsResponse ∧
    (handleTip hash onCurve fw pid rq rpc).rpcCalled = false ∧
    missingParamsResponse.status = 400 ∧
    missingParamsResponse.required =
      some ["viewerUserId", "creatorUserId", "viewerWallet",
            "creatorWallet", "amount"] := by
  have hmc : missingCheck rq = true := by
    rcases h with h | h | h | h | h <;>
      simp [missingCheck, h, JSVal.truthy]
  simp [handleTip, hmc, missingParamsResponse]

/-- Witness for C2: a concrete request whose `creatorWallet` is
absent. -/
theorem tip_missing_field_400_witness :
    (handleTip sampleHash sampleOffCurve sampleFeeWallet
        sampleProgramId
        { sampleValidRequest with creatorWallet := JSVal.undefined }
        (Except.ok "sig")).response = missingParamsResponse ∧
    (handleTip sampleHash sampleOffCurve sampleFeeWallet
        sampleProgramId
        { sampleValidRequest with creatorWallet := JSVal.undefined }
        (Except.ok "sig")).rpcCalled = false ∧
    missingParamsResponse.status = 400 ∧
    missingParamsResponse.required =
      some ["viewerUserId", "creatorUserId", "viewerWallet",
            "creatorWallet", "amount"] :=
  tip_missing_field_400 sampleHash sampleOffCurve sampleFeeWallet
    sampleProgramId
    { sampleValidRequest with creatorWallet := JSVal.undefined }
    (Except.ok "sig") (Or.inr (Or.inr (Or.inr (Or.inl rfl))))

/-- C3: a tip request whose amount is present but non-numeric or not
strictly positive gets a 400 response, and the chain client rpc is
never invoked. -/
theorem tip_invalid_amount_400
    (hash : List Nat → List Nat) (onCurve : List Nat → Bool)
    (fw : PublicKey) (pid : List Nat) (rq : TipRequest)
    (rpc : Except JsError String)
    (hpresent : rq.amount ≠ JSVal.undefined)
    (hbad : invalidAmountCheck rq.amount = true) :
    (handleTip hash onCurve fw pid rq rpc).response.status = 400 ∧
    (handleTip hash onCurve fw pid rq rpc).rpcCalled = false := by
  cases hmc : missingCheck rq with
  | true => simp [handleTip, hmc, missingParamsResponse]
  | false => simp [handleTip, hmc, hbad, invalidAmountResponse]

/-- Witness for C3: a concrete request whose amount is the string
"10000" rather than a number. -/
theorem tip_invalid_amount_400_witness :
    (handleTip sampleHash sampleOffCurve sampleFeeWallet
        sampleProgramId
        { sampleValidRequest with amount := JSVal.str "10000" }
        (Except.ok "sig")).response.status = 400 ∧
    (handleTip sampleHash sampleOffCurve sampleFeeWallet
        sampleProgramId
        { sampleValidRequest with amount := JSVal.str "10000" }
        (Except.ok "sig")).rpcCalled = false :=
  tip_invalid_amount_400 sampleHash sampleOffCurve sampleFeeWallet
    sampleProgramId
    { sampleValidRequest with amount := JSVal.str "10000" }
    (Except.ok "sig") (by decide) (by decide)

/-- C4: a tip request in which `viewerWallet` or `creatorWallet` is a
string that does not parse as a well-formed address gets a 400
response, and the chain client rpc is never invoked (no network call
is attempted). -/
theorem tip_malformed_wallet_400
    (hash : List Nat → List Nat) (onCurve : List Nat → Bool)
    (fw : PublicKey) (pid : List Nat) (rq : TipRequest)
    (rpc : Except JsError String)
    (h : (∃ s, rq.viewerWallet = JSVal.str s ∧
            parsePublicKeyStr s = none) ∨
         (∃ s, rq.creatorWallet = JSVal.str s ∧
            parsePublicKeyStr s = none)) :
    (handleTip hash onCurve fw pid rq rpc).response.status = 400 ∧
    (handleTip hash onCurve fw pid rq rpc).rpcCalled = false := by
  cases hmc : missingCheck rq with
  | true => simp [handleTip, hmc, missingParamsResponse]
  | false =>
    cases hia : invalidAmountCheck rq.amount with
    | true => simp [handleTip, hmc, hia, invalidAmountResponse]
    | false =>
      rcases h with ⟨s, hw, hp⟩ | ⟨s, hw, hp⟩
      · cases hc : parsePublicKeyVal rq.creatorWallet <;>
          simp [handleTip, hmc, hia, hw, hc, parsePublicKeyVal, hp,
            invalidWalletResponse]
      · cases hv : parsePublicKeyVal rq.viewerWallet <;>
          simp [handleTip, hmc, hia, hw, hv, parsePublicKeyVal, hp,
            invalidWalletResponse]

/-- Witness for C4: a concrete request whose `viewerWallet` contains a
character outside the base58 alphabet. -/
theorem tip_malformed_wallet_400_witness :
    (handleTip sampleHash sampleOffCurve sampleFeeWallet
        sampleProgramId
        { sampleValidRequest with viewerWallet := JSVal.str "not-a-key" }
        (Except.ok "sig")).response.status = 400 ∧
    (handleTip sampleHash sampleOffCurve sampleFeeWallet
        sampleProgramId
        { sampleValidRequest with viewerWallet := JSVal.str "not-a-key" }
        (Except.ok "sig")).rpcCalled = false :=
  tip_malformed_wallet_400 sampleHash sampleOffCurve sampleFeeWallet
    sampleProgramId
    { sampleValidRequest with viewerWallet := JSVal.str "not-a-key" }
    (Except.ok "sig") (Or.inl ⟨"not-a-key", rfl, by decide⟩)

end Relayer

namespace Relayer

/-- Helper: on a fully valid request (non-empty string identifiers,
string wallets that parse, positive integer amount, all three PDA
searches succeeding) the `/tip` handler issues exactly the three
derivations, reaches the rpc call with the identifiers and amount as
arguments and the fee wallet as sole signer, and answers from the rpc
outcome. -/
theorem tip_valid_outcome
    (hash : List Nat → List Nat) (onCurve : List Nat → Bool)
    (fw : PublicKey) (pid : List Nat) (vid cid vw cw : String)
    (a : Int) (viewerKey creatorKey : PublicKey)
    (p1 p2 p3 : List Nat × Nat)
    (rpc : Except JsError String)
    (hvid : vid ≠ "") (hcid : cid ≠ "")
    (hvw : vw ≠ "") (hcw : cw ≠ "")
    (hv : parsePublicKeyStr vw = some viewerKey)
    (hc : parsePublicKeyStr cw = some creatorKey)
    (ha : 0 < a)
    (h1 : findProgramAddressSync hash onCurve
        [utf8Bytes "profile", viewerKey.bytes, utf8Bytes vid]
        pid = Except.ok p1)
    (h2 : findProgramAddressSync hash onCurve
        [utf8Bytes "profile", creatorKey.bytes, utf8Bytes cid]
        pid = Except.ok p2)
    (h3 : findProgramAddressSync hash onCurve
        [utf8Bytes "fee_vault"] pid = Except.ok p3) :
    handleTip hash onCurve fw pid
        ⟨.str vid, .str cid, .str vw, .str cw, .num a⟩ rpc =
      { response :=
          match rpc with
          | .ok sig =>
            { status := 200
              success := some true
              txSig := some sig
              message := some "Tip sent and fee reimbursed" }
          | .error e => tipCatchResponse e
        derivations :=
          [([utf8Bytes "profile", viewerKey.bytes, utf8Bytes vid], pid),
           ([utf8Bytes "profile", creatorKey.bytes, utf8Bytes cid], pid),
           ([utf8Bytes "fee_vault"], pid)]
        rpcCalled := true
        rpcArgs := some (JSVal.str vid, JSVal.str cid, a)
        signers := [fw] } := by
  have hmc : missingCheck
      ⟨.str vid, .str cid, .str vw, .str cw, .num a⟩ = false := by
    simp [missingCheck, JSVal.truthy, hvid, hcid, hvw, hcw]
  have hia : invalidAmountCheck (JSVal.num a) = false := by
    simp [invalidAmountCheck]
    omega
  cases rpc with
  | ok sig =>
    simp [handleTip, hmc, hia, parsePublicKeyVal, hv, hc,
      bufferFromVal, amountInt, h1, h2, h3]
  | error e =>
    simp [handleTip, hmc, hia, parsePublicKeyVal, hv, hc,
      bufferFromVal, amountInt, h1, h2, h3]

end Relayer

namespace Relayer

/-- C5 counterexample: a tip request that passes every validation
check but whose viewer identifier is a 36-character UUID (36 UTF-8
bytes, over the SDK's 32-byte seed limit) makes the first derivation
throw the max-seed-length `TypeError`: only one derivation call is
ever issued, the handler answers 500, and the rpc is never reached —
so the handler does not derive three addresses for every valid
request. -/
theorem tip_long_userid_derivations_cex :
    missingCheck
      ⟨.str longUserId, .str "c1", .str oneKeyStr, .str oneKeyStr,
       .num 10000⟩ = false ∧
    invalidAmountCheck (JSVal.num 10000) = false ∧
    (handleTip sampleHash sampleOffCurve sampleFeeWallet
        sampleProgramId
        ⟨.str longUserId, .str "c1", .str oneKeyStr, .str oneKeyStr,
         .num 10000⟩
        (Except.ok "sig")).derivations =
      [([utf8Bytes "profile", oneKey.bytes, utf8Bytes longUserId],
        sampleProgramId)] ∧
    (handleTip sampleHash sampleOffCurve sampleFeeWallet
        sampleProgramId
        ⟨.str longUserId, .str "c1", .str oneKeyStr, .str oneKeyStr,
         .num 10000⟩
        (Except.ok "sig")).response.status = 500 ∧
    (handleTip sampleHash sampleOffCurve sampleFeeWallet
        sampleProgramId
        ⟨.str longUserId, .str "c1", .str oneKeyStr, .str oneKeyStr,
         .num 10000⟩
        (Except.ok "sig")).response.error =
      some "Max seed length exceeded" ∧
    (1 : Nat) ≠ 3 := by
  decide

/-- C5 as amended: on a valid tip request whose viewer and creator
identifiers each encode to at most 32 UTF-8 bytes and whose bump-seed
searches succeed, the handler derives exactly three addresses against
the configured program identifier, with seed lists
["profile", viewer wallet key bytes, viewer id bytes],
["profile", creator wallet key bytes, creator id bytes] and
["fee_vault"], in that order. -/
theorem tip_valid_derives_three_pdas
    (hash : List Nat → List Nat) (onCurve : List Nat → Bool)
    (fw : PublicKey) (pid : List Nat) (vid cid vw cw : String)
    (a : Int) (viewerKey creatorKey : PublicKey)
    (p1 p2 p3 : List Nat × Nat)
    (rpc : Except JsError String)
    (hvid : vid ≠ "") (hcid : cid ≠ "")
    (hvw : vw ≠ "") (hcw : cw ≠ "")
    (hv : parsePublicKeyStr vw = some viewerKey)
    (hc : parsePublicKeyStr cw = some creatorKey)
    (ha : 0 < a)
    (hlen1 : (utf8Bytes vid).length ≤ maxSeedLength)
    (hlen2 : (utf8Bytes cid).length ≤ maxSeedLength)
    (h1 : findProgramAddressSync hash onCurve
        [utf8Bytes "profile", viewerKey.bytes, utf8Bytes vid]
        pid = Except.ok p1)
    (h2 : findProgramAddressSync hash onCurve
        [utf8Bytes "profile", creatorKey.bytes, utf8Bytes cid]
        pid = Except.ok p2)
    (h3 : findProgramAddressSync hash onCurve
        [utf8Bytes "fee_vault"] pid = Except.ok p3) :
    (handleTip hash onCurve fw pid
        ⟨.str vid, .str cid, .str vw, .str cw, .num a⟩
        rpc).derivations =
      [([utf8Bytes "profile", viewerKey.bytes, utf8Bytes vid], pid),
       ([utf8Bytes "profile", creatorKey.bytes, utf8Bytes cid], pid),
       ([utf8Bytes "fee_vault"], pid)] := by
  rw [tip_valid_outcome hash onCurve fw pid vid cid vw cw a viewerKey
    creatorKey p1 p2 p3 rpc hvid hcid hvw hcw hv hc ha h1 h2 h3]

/-- Witness for C5 at a fully concrete valid request with short
identifiers. -/
theorem tip_valid_derives_three_pdas_witness :
    (handleTip sampleHash sampleOffCurve sampleFeeWallet
        sampleProgramId
        ⟨.str "v1", .str "c1", .str oneKeyStr, .str oneKeyStr,
         .num 10000⟩
        (Except.ok "sig")).derivations =
      [([utf8Bytes "profile", oneKey.bytes, utf8Bytes "v1"],
        sampleProgramId),
       ([utf8Bytes "profile", oneKey.bytes, utf8Bytes "c1"],
        sampleProgramId),
       ([utf8Bytes "fee_vault"], sampleProgramId)] :=
  tip_valid_derives_three_pdas sampleHash sampleOffCurve
    sampleFeeWallet sampleProgramId "v1" "c1" oneKeyStr oneKeyStr
    10000 oneKey oneKey ([95], 255) ([95], 255) ([63], 255)
    (Except.ok "sig") (by decide) (by decide) (by decide) (by decide)
    (by decide) (by decide) (by decide) (by decide) (by decide)
    rfl rfl rfl

/-- C6 counterexample: a tip request that passes every validation
check but whose creator identifier is a 36-character UUID makes the
second derivation throw the max-seed-length `TypeError`: the handler
answers 500 and the chain client's tip instruction is never invoked —
no arguments are passed and the signer list is never formed. -/
theorem tip_long_userid_no_rpc_cex :
    missingCheck
      ⟨.str "v1", .str longUserId, .str oneKeyStr, .str oneKeyStr,
       .num 10000⟩ = false ∧
    (handleTip sampleHash sampleOffCurve sampleFeeWallet
        sampleProgramId
        ⟨.str "v1", .str longUserId, .str oneKeyStr, .str oneKeyStr,
         .num 10000⟩
        (Except.ok "sig")).rpcCalled = false ∧
    (handleTip sampleHash sampleOffCurve sampleFeeWallet
        sampleProgramId
        ⟨.str "v1", .str longUserId, .str oneKeyStr, .str oneKeyStr,
         .num 10000⟩
        (Except.ok "sig")).rpcArgs = none ∧
    (handleTip sampleHash sampleOffCurve sampleFeeWallet
        sampleProgramId
        ⟨.str "v1", .str longUserId, .str oneKeyStr, .str oneKeyStr,
         .num 10000⟩
        (Except.ok "sig")).signers = [] ∧
    (handleTip sampleHash sampleOffCurve sampleFeeWallet
        sampleProgramId
        ⟨.str "v1", .str longUserId, .str oneKeyStr, .str oneKeyStr,
         .num 10000⟩
        (Except.ok "sig")).response.status = 500 := by
  decide

/-- C6 as amended: on a valid tip request whose identifiers each
encode to at most 32 UTF-8 bytes and whose bump-seed searches succeed,
the handler reaches the chain client's tip instruction with exactly
the viewer id, the creator id and the amount as arguments, and the
signer list contains only the fee wallet. -/
theorem tip_valid_rpc_args_signers
    (hash : List Nat → List Nat) (onCurve : List Nat → Bool)
    (fw : PublicKey) (pid : List Nat) (vid cid vw cw : String)
    (a : Int) (viewerKey creatorKey : PublicKey)
    (p1 p2 p3 : List Nat × Nat)
    (rpc : Except JsError String)
    (hvid : vid ≠ "") (hcid : cid ≠ "")
    (hvw : vw ≠ "") (hcw : cw ≠ "")
    (hv : parsePublicKeyStr vw = some viewerKey)
    (hc : parsePublicKeyStr cw = some creatorKey)
    (ha : 0 < a)
    (hlen1 : (utf8Bytes vid).length ≤ maxSeedLength)
    (hlen2 : (utf8Bytes cid).length ≤ maxSeedLength)
    (h1 : findProgramAddressSync hash onCurve
        [utf8Bytes "profile", viewerKey.bytes, utf8Bytes vid]
        pid = Except.ok p1)
    (h2 : findProgramAddressSync hash onCurve
        [utf8Bytes "profile", creatorKey.bytes, utf8Bytes cid]
        pid = Except.ok p2)
    (h3 : findProgramAddressSync hash onCurve
        [utf8Bytes "fee_vault"] pid = Except.ok p3) :
    (handleTip hash onCurve fw pid
        ⟨.str vid, .str cid, .str vw, .str cw, .num a⟩
        rpc).rpcCalled = true ∧
    (handleTip hash onCurve fw pid
        ⟨.str vid, .str cid, .str vw, .str cw, .num a⟩
        rpc).rpcArgs = some (JSVal.str vid, JSVal.str cid, a) ∧
    (handleTip hash onCurve fw pid
        ⟨.str vid, .str cid, .str vw, .str cw, .num a⟩
        rpc).signers = [fw] := by
  rw [tip_valid_outcome hash onCurve fw pid vid cid vw cw a viewerKey
    creatorKey p1 p2 p3 rpc hvid hcid hvw hcw hv hc ha h1 h2 h3]
  exact ⟨rfl, rfl, rfl⟩

/-- Witness for C6 at a fully concrete valid request with short
identifiers. -/
theorem tip_valid_rpc_args_signers_witness :
    (handleTip sampleHash sampleOffCurve sampleFeeWallet
        sampleProgramId
        ⟨.str "v1", .str "c1", .str oneKeyStr, .str oneKeyStr,
         .num 10000⟩
        (Except.ok "sig")).rpcCalled = true ∧
    (handleTip sampleHash sampleOffCurve sampleFeeWallet
        sampleProgramId
        ⟨.str "v1", .str "c1", .str oneKeyStr, .str oneKeyStr,
         .num 10000⟩
        (Except.ok "sig")).rpcArgs =
      some (JSVal.str "v1", JSVal.str "c1", 10000) ∧
    (handleTip sampleHash sampleOffCurve sampleFeeWallet
        sampleProgramId
        ⟨.str "v1", .str "c1", .str oneKeyStr, .str oneKeyStr,
         .num 10000⟩
        (Except.ok "sig")).signers = [sampleFeeWallet] :=
  tip_valid_rpc_args_signers sampleHash sampleOffCurve
    sampleFeeWallet sampleProgramId "v1" "c1" oneKeyStr oneKeyStr
    10000 oneKey oneKey ([95], 255) ([95], 255) ([63], 255)
    (Except.ok "sig") (by decide) (by decide) (by decide) (by decide)
    (by decide) (by decide) (by decide) (by decide) (by decide)
    rfl rfl rfl

/-- C7: when the balance lookup throws, `/health` answers 503 with the
error field populated; when it succeeds, it answers with the status
string and the wallet balance. -/
theorem health_responses :
    (∀ e : JsError,
      (handleHealth (Except.error e)).status = 503 ∧
      (handleHealth (Except.error e)).error = some e.message ∧
      (handleHealth (Except.error e)).statusField = "unhealthy") ∧
    (∀ b : Int,
      (handleHealth (Except.ok b)).status = 200 ∧
      (handleHealth (Except.ok b)).statusField = "healthy" ∧
      (handleHealth (Except.ok b)).walletBalance =
        some ((b : ℚ) / 1000000000)) :=
  ⟨fun _ => ⟨rfl, rfl, rfl⟩, fun _ => ⟨rfl, rfl, rfl⟩⟩

/-- C8: `/debug-idl` returns the loaded interface's instruction names
and account names, its flag is true exactly when an instruction named
`initialize_fee_vault` is present, and the process state is returned
unchanged. -/
theorem debug_idl_spec (st : ServerState) :
    (handleDebugIdl st).1.instructions =
      st.idl.instructions.map (fun i => i.name) ∧
    (handleDebugIdl st).1.accounts =
      st.idl.accounts.map (fun a => a.name) ∧
    ((handleDebugIdl st).1.hasInitFeeVault = true ↔
      ∃ i ∈ st.idl.instructions, i.name = "initialize_fee_vault") ∧
    (handleDebugIdl st).2 = st := by
  refine ⟨rfl, rfl, ?_, rfl⟩
  simp [handleDebugIdl, List.any_eq_true]

/-- C9: a tip request in which one of the four string fields is the
empty string is rejected with the very same 400
"Missing required parameters" response as an absent field, and the
chain client rpc is never invoked. -/
theorem tip_empty_string_field_400
    (hash : List Nat → List Nat) (onCurve : List Nat → Bool)
    (fw : PublicKey) (pid : List Nat) (rq : TipRequest)
    (rpc : Except JsError String)
    (h : rq.viewerUserId = JSVal.str "" ∨
         rq.creatorUserId = JSVal.str "" ∨
         rq.viewerWallet = JSVal.str "" ∨
         rq.creatorWallet = JSVal.str "") :
    (handleTip hash onCurve fw pid rq rpc).response =
        missingParamsResponse ∧
    (handleTip hash onCurve fw pid rq rpc).rpcCalled = false ∧
    missingParamsResponse.status = 400 ∧
    missingParamsResponse.error =
      some "Missing required parameters" := by
  have hmc : missingCheck rq = true := by
    rcases h with h | h | h | h <;>
      simp [missingCheck, h, JSVal.truthy]
  simp [handleTip, hmc, missingParamsResponse]

/-- Witness for C9: a concrete request whose `viewerUserId` is the
empty string. -/
theorem tip_empty_string_field_400_witness :
    (handleTip sampleHash sampleOffCurve sampleFeeWallet
        sampleProgramId
        { sampleValidRequest with viewerUserId := JSVal.str "" }
        (Except.ok "sig")).response = missingParamsResponse ∧
    (handleTip sampleHash sampleOffCurve sampleFeeWallet
        sampleProgramId
        { sampleValidRequest with viewerUserId := JSVal.str "" }
        (Except.ok "sig")).rpcCalled = false ∧
    missingParamsResponse.status = 400 ∧
    missingParamsResponse.error =
      some "Missing required parameters" :=
  tip_empty_string_field_400 sampleHash sampleOffCurve
    sampleFeeWallet sampleProgramId
    { sampleValidRequest with viewerUserId := JSVal.str "" }
    (Except.ok "sig") (Or.inl rfl)

/-- C10 counterexample: when the chain client throws with the falsy
numeric code 0 (a real program error code), the 500 response's code
field is the fallback string "UNKNOWN_ERROR", not the supplied code —
so the response code does not equal the client's code even though one
was supplied. -/
theorem tip_error_code_claim_cex :
    (handleTip sampleHash sampleOffCurve sampleFeeWallet
        sampleProgramId sampleValidRequest
        (Except.error
          { message := "custom program error"
            logs := none
            code := JSVal.num 0 })).response.status = 500 ∧
    (handleTip sampleHash sampleOffCurve sampleFeeWallet
        sampleProgramId sampleValidRequest
        (Except.error
          { message := "custom program error"
            logs := none
            code := JSVal.num 0 })).response.code =
      some (JSVal.str "UNKNOWN_ERROR") ∧
    JSVal.str "UNKNOWN_ERROR" ≠ JSVal.num 0 := by
  decide

/-- C10 as amended: a 500 response from the `/tip` catch block always
carries the error message, a details field equal to the client's log
lines (empty list when none are supplied), and an always-present code
field that equals the client's code when a truthy one is supplied and
the string "UNKNOWN_ERROR" when the code is absent or falsy. -/
theorem tip_client_error_500_fields
    (hash : List Nat → List Nat) (onCurve : List Nat → Bool)
    (fw : PublicKey) (pid : List Nat) (vid cid vw cw : String)
    (a : Int) (viewerKey creatorKey : PublicKey)
    (p1 p2 p3 : List Nat × Nat) (e : JsError)
    (hvid : vid ≠ "") (hcid : cid ≠ "")
    (hvw : vw ≠ "") (hcw : cw ≠ "")
    (hv : parsePublicKeyStr vw = some viewerKey)
    (hc : parsePublicKeyStr cw = some creatorKey)
    (ha : 0 < a)
    (h1 : findProgramAddressSync hash onCurve
        [utf8Bytes "profile", viewerKey.bytes, utf8Bytes vid]
        pid = Except.ok p1)
    (h2 : findProgramAddressSync hash onCurve
        [utf8Bytes "profile", creatorKey.bytes, utf8Bytes cid]
        pid = Except.ok p2)
    (h3 : findProgramAddressSync hash onCurve
        [utf8Bytes "fee_vault"] pid = Except.ok p3) :
    (handleTip hash onCurve fw pid
        ⟨.str vid, .str cid, .str vw, .str cw, .num a⟩
        (Except.error e)).response = tipCatchResponse e ∧
    (tipCatchResponse e).status = 500 ∧
    (tipCatchResponse e).error = some e.message ∧
    (tipCatchResponse e).details = some (e.logs.getD []) ∧
    (tipCatchResponse e).code =
      some (if e.code.truthy then e.code
            else JSVal.str "UNKNOWN_ERROR") := by
  rw [tip_valid_outcome hash onCurve fw pid vid cid vw cw a viewerKey
    creatorKey p1 p2 p3 (Except.error e) hvid hcid hvw hcw hv hc ha
    h1 h2 h3]
  exact ⟨rfl, rfl, rfl, rfl, rfl⟩

/-- Witness for the amended C10 at a concrete client error carrying
logs and a truthy string code. -/
theorem tip_client_error_500_fields_witness :
    (handleTip sampleHash sampleOffCurve sampleFeeWallet
        sampleProgramId
        ⟨.str "v1", .str "c1", .str oneKeyStr, .str oneKeyStr,
         .num 10000⟩
        (Except.error
          { message := "boom"
            logs := some ["log line 1"]
            code := JSVal.str "E42" })).response =
      tipCatchResponse
        { message := "boom"
          logs := some ["log line 1"]
          code := JSVal.str "E42" } ∧
    (tipCatchResponse
        { message := "boom"
          logs := some ["log line 1"]
          code := JSVal.str "E42" }).status = 500 ∧
    (tipCatchResponse
        { message := "boom"
          logs := some ["log line 1"]
          code := JSVal.str "E42" }).error = some "boom" ∧
    (tipCatchResponse
        { message := "boom"
          logs := some ["log line 1"]
          code := JSVal.str "E42" }).details =
      some (Option.getD (some ["log line 1"]) []) ∧
    (tipCatchResponse
        { message := "boom"
          logs := some ["log line 1"]
          code := JSVal.str "E42" }).code =
      some (if JSVal.truthy (JSVal.str "E42") then JSVal.str "E42"
            else JSVal.str "UNKNOWN_ERROR") :=
  tip_client_error_500_fields sampleHash sampleOffCurve
    sampleFeeWallet sampleProgramId "v1" "c1" oneKeyStr oneKeyStr
    10000 oneKey oneKey ([95], 255) ([95], 255) ([63], 255)
    { message := "boom"
      logs := some ["log line 1"]
      code := JSVal.str "E42" }
    (by decide) (by decide) (by decide) (by decide) (by decide)
    (by decide) (by decide) rfl rfl rfl

end Relayer
